import Mathlib

/-!
Verification development for the wallet-server repository.

This file gives a shallow embedding of the core state machines of the
repository — the revocation transaction (src/routes/admin.ts), the issuance
polling state machine (src/routes/issuance.ts) and the verification polling
state machine in single and batch mode (src/routes/verification.ts) — and
proves the specified properties about them.

Modelling conventions:
- Database rows become Lean structures; row ids and timestamps are Nat
  (milliseconds since epoch); the wall-clock comparison `new Date() > expiresAt`
  becomes `expiresAt < now` on Nat.
- External HTTP calls are modelled by an explicit response value passed to the
  function (an oracle), mirroring exactly the branches the code takes on each
  response shape. A Bool in the result records whether the external endpoint
  was contacted.
- A Prisma `$transaction` whose callback throws is a rollback: the embedding
  returns the unchanged state together with the error outcome.
-/

namespace WalletServer

/-- Status enum of an `IssuedVC` row in the Prisma schema. -/
inductive IssuanceStatus
  | issuing | issued | expired | revoked
deriving DecidableEq, Repr

/-- Status enum of an `IssuanceLog` row in the Prisma schema. -/
inductive IssuanceLogStatus
  | initiated | user_claimed | expired
deriving DecidableEq, Repr

/-- Status enum of a `VerificationLog` row in the Prisma schema. -/
inductive VerificationStatus
  | initiated | success | failed | expired | error_missing_uuid
deriving DecidableEq, Repr

/-- Status enum of a `BatchVerificationSession` row in the Prisma schema. -/
inductive BatchVerificationStatus
  | active | closed | expired
deriving DecidableEq, Repr

/-- An `IssuedVC` row (the fields the core logic touches). -/
structure IssuedVC where
  id : Nat
  personId : Nat
  templateId : Nat
  status : IssuanceStatus
  cid : Option String
  issuedAt : Option Nat
deriving DecidableEq, Repr

/-- A `PersonEligibility` row: one (person, template) grant. -/
structure PersonEligibility where
  personId : Nat
  templateId : Nat
deriving DecidableEq, Repr

/-- The slice of the database the revocation transaction touches. -/
structure RevocationDB where
  issuedVCs : List IssuedVC
  eligibilities : List PersonEligibility
deriving DecidableEq, Repr

/-- The check `new Date() > expiresAt` with a nullable `expiresAt` column: a
null deadline never counts as expired. -/
def isExpiredByClock (now : Nat) (expiresAt : Option Nat) : Bool :=
  match expiresAt with
  | some t => t < now
  | none => false

/-- Does this `IssuedVC` row belong to the (person, template) pair? This is
the `where: { personId, templateId }` filter of the revoke route. -/
def vcMatchesPair (pid tid : Nat) (vc : IssuedVC) : Bool :=
  vc.personId == pid && vc.templateId == tid

/-- The `tx.issuedVC.findMany` of the revoke route, step 1: the cids of all
rows for the pair with `status = issued` and a non-null `cid`. These are the
credentials sent to the external revoke endpoint. -/
def vcsToRevokeInSandbox (vcs : List IssuedVC) (pid tid : Nat) : List String :=
  (vcs.filter fun vc =>
      vcMatchesPair pid tid vc && vc.status == .issued && vc.cid.isSome).filterMap
    (fun vc => vc.cid)

/-- Outcome of the revoke route body. `sandboxError` is the axios failure
path: `Promise.all` rejected, the `$transaction` callback threw, and Prisma
rolled the transaction back (HTTP 502 to the caller). -/
inductive RevokeOutcome
  | ok | sandboxError
deriving DecidableEq, Repr

/-- Route `POST /api/v1/admin/eligibility/revoke` (src/routes/admin.ts): inside one
`$transaction`, find the issued-with-cid rows for the pair, call the external
revoke endpoint for each (`Promise.all`), and only if every call succeeds mark
every `IssuedVC` row of the pair — any prior status — `revoked` and delete the
`PersonEligibility` rows of the pair. `revokeOk` is the oracle for the
external `PUT /api/credential/:cid/revocation` call. -/
def revokeEligibility (revokeOk : String → Bool) (db : RevocationDB)
    (pid tid : Nat) : RevocationDB × RevokeOutcome :=
  let cids := vcsToRevokeInSandbox db.issuedVCs pid tid
  if cids.all revokeOk then
    ({ issuedVCs := db.issuedVCs.map fun vc =>
         if vcMatchesPair pid tid vc then { vc with status := .revoked } else vc,
       eligibilities := db.eligibilities.filter fun e =>
         !(e.personId == pid && e.templateId == tid) },
     .ok)
  else
    (db, .sandboxError)


/-! ### CID extraction (src/routes/issuance.ts, decodeCidFromCredential)

JavaScript strings are modelled as `List Char`; `jsSplit` is the semantics of
the JavaScript `String.prototype.split` with a non-empty string separator:
scan left to right, emit the buffered segment and skip the separator at each
non-overlapping occurrence. -/

/-- Does the second list start with the first one? (position match of the
split scan). -/
def startsWithSeq : List Char → List Char → Bool
  | [], _ => true
  | _ :: _, [] => false
  | a :: as, b :: bs => a == b && startsWithSeq as bs

/-- Does `sep` occur (as a contiguous run) anywhere in the list? -/
def occursIn (sep : List Char) : List Char → Bool
  | [] => startsWithSeq sep []
  | c :: rest => startsWithSeq sep (c :: rest) || occursIn sep rest

/-- Fuel-indexed worker for `jsSplit`; the fuel only serves structural
recursion and is always at least the length of the input. -/
def jsSplitAux (sep : List Char) : Nat → List Char → List (List Char)
  | _, [] => [[]]
  | 0, c :: rest => [c :: rest]
  | fuel+1, c :: rest =>
    if startsWithSeq sep (c :: rest) then
      [] :: jsSplitAux sep fuel (List.drop sep.length (c :: rest))
    else
      match jsSplitAux sep fuel rest with
      | [] => [[c]]
      | h :: t => (c :: h) :: t

/-- JavaScript `s.split(sep)` for a non-empty `sep`. -/
def jsSplit (sep s : List Char) : List (List Char) :=
  jsSplitAux sep s.length s

/-- JavaScript `Array.prototype.pop()` on the split result: the last element
(the split result is never empty; `[]` is a dead default). -/
def lastD : List (List Char) → List Char
  | [] => []
  | [x] => x
  | _ :: xs => lastD xs

/-- Error codes of `StatusRouteError` in the issuance status route that the
modelled fragment can raise. -/
inductive StatusErr
  | INVALID_JWT | NO_CID | NO_CREDENTIAL
deriving DecidableEq, Repr

/-- Function `decodeCidFromCredential` of src/routes/issuance.ts. The base64
JWT decoding step (`jwtDecode`) is abstracted to its output: the input here is
the `jti` claim of the decoded credential token, `none` when decoding failed
or the payload has no `jti` (the code then throws INVALID_JWT; an empty `jti`
string is falsy in JavaScript and takes the same branch). The cid is
`jti.split(\'credential/\').pop()`; an empty pop result is falsy and raises
NO_CID. -/
def decodeCidFromCredential (jti : Option String) : Except StatusErr String :=
  match jti with
  | none => Except.error .INVALID_JWT
  | some j =>
    if j = "" then Except.error .INVALID_JWT
    else
      let cid := lastD (jsSplit "credential/".toList j.toList)
      if cid = [] then Except.error .NO_CID else Except.ok cid.asString

/-! ### Issuance polling state machine (src/routes/issuance.ts) -/

/-- An `IssuanceLog` row (the fields the status route touches). -/
structure IssuanceLogRec where
  id : Nat
  transactionId : String
  status : IssuanceLogStatus
  expiresAt : Option Nat
deriving DecidableEq, Repr

/-- The state the issuance status route operates on: the log found by
transaction id together with its 1:1 `IssuedVC` row (the `include` of
`findActiveIssuanceLog`). -/
structure IssuancePollState where
  log : IssuanceLogRec
  vc : IssuedVC
deriving DecidableEq, Repr

/-- Response of the external `GET /api/credential/nonce/:transactionId` call,
as the code distinguishes it: a 200 body missing `credential`, a 200 with a
credential token (carrying its decoded `jti` claim, see
`decodeCidFromCredential`), the still-pending axios error with code 61010, or
any other axios error. -/
inductive NonceResponse
  | noCredential
  | credential (jti : Option String)
  | pendingError
  | otherError
deriving DecidableEq, Repr

/-- What the issuance status route answers (the `status` field of the JSON, or
the error class of the failure response). -/
inductive IssuancePollResult
  | issued
  | expired
  | initiated
  | statusError (e : StatusErr)
  | sandboxError
deriving DecidableEq, Repr

/-- Function `getFinalStatusResponse`: a terminal log answers immediately. -/
def getFinalStatusResponse (log : IssuanceLogRec) : Option IssuancePollResult :=
  if log.status = .user_claimed then some .issued
  else if log.status = .expired then some .expired
  else none

/-- Function `handleExpiryIfNeeded`: when the claim window has lapsed, set
`IssuanceLog → expired` and `IssuedVC → expired` in one `$transaction` and
report that the expiry fired. -/
def handleExpiryIfNeeded (now : Nat) (st : IssuancePollState) :
    IssuancePollState × Bool :=
  if isExpiredByClock now st.log.expiresAt then
    (⟨{ st.log with status := .expired }, { st.vc with status := .expired }⟩, true)
  else
    (st, false)

/-- Function `checkSandboxAndUpdateStatus` together with the axios branches of
`handleStatusRouteError`: on a credential token, extract the cid and in one
`$transaction` set `IssuanceLog → user_claimed` and
`IssuedVC → issued, cid, issuedAt = now`; the 61010 axios error is mapped to a
still-pending `initiated` answer with no state change. -/
def checkSandboxAndUpdateStatus (now : Nat) (resp : NonceResponse)
    (st : IssuancePollState) : IssuancePollState × IssuancePollResult :=
  match resp with
  | .pendingError => (st, .initiated)
  | .otherError => (st, .sandboxError)
  | .noCredential => (st, .statusError .NO_CREDENTIAL)
  | .credential jti =>
    match decodeCidFromCredential jti with
    | .error e => (st, .statusError e)
    | .ok cid =>
      (⟨{ st.log with status := .user_claimed },
        { st.vc with status := .issued, cid := some cid, issuedAt := some now }⟩,
       .issued)

/-- Route `GET /api/issuance/status/:transactionId`: terminal short-circuit,
then lazy expiry, then the external nonce endpoint. The Bool in the result
records whether the external endpoint was called. -/
def issuanceStatusPoll (now : Nat) (resp : NonceResponse)
    (st : IssuancePollState) : IssuancePollState × IssuancePollResult × Bool :=
  match getFinalStatusResponse st.log with
  | some r => (st, r, false)
  | none =>
    match handleExpiryIfNeeded now st with
    | (st2, true) => (st2, .expired, false)
    | (_, false) =>
      let (st3, r) := checkSandboxAndUpdateStatus now resp st
      (st3, r, true)

/-! ### Verification polling state machine (src/routes/verification.ts) -/

/-- A `Person` row (the fields the verification flow touches). -/
structure Person where
  id : Nat
  personalId : String
deriving DecidableEq, Repr

/-- One claim of a claim set in the external verifier result. -/
structure VClaim where
  ename : String
  cname : String
  value : String
deriving DecidableEq, Repr

/-- One claim set (`CredentialData`) of the external verifier result. -/
structure CredentialData where
  credentialType : String
  claims : List VClaim
deriving DecidableEq, Repr

/-- Body of a successful `POST /api/oidvp/result` response
(`VpResultResponse`). An empty `resultDescription` models a missing or empty
(falsy) description. -/
structure VpResultResponse where
  data : List CredentialData
  verifyResult : Bool
  resultDescription : String
deriving DecidableEq, Repr

/-- Response of the external result endpoint as the code distinguishes it: a
parsed result body, the still-pending 400 error carrying code 4002, or any
other hard error. -/
inductive VerifierResponse
  | result (r : VpResultResponse)
  | pending
  | hardError
deriving DecidableEq, Repr

/-- JavaScript `a || b` on strings: empty is falsy. -/
def jsOr (a b : String) : String :=
  if a = "" then b else a

/-- A `VerificationLog` row (the fields the polling logic touches). -/
structure VerificationLogRec where
  id : Nat
  transactionId : String
  status : VerificationStatus
  expiresAt : Option Nat
  verifiedPersonId : Option Nat
  verifyResult : Option Bool
  resultDescription : Option String
  returnedData : Option VpResultResponse
  batchVerificationSessionId : Option Nat
deriving DecidableEq, Repr

/-- The personalId extraction of Step 21 Case B: look only into the first
claim set, take the first claim named `personalId`, and require its value to
be truthy (non-empty). -/
def findPersonalId (data : List CredentialData) : Option String :=
  match data with
  | [] => none
  | d0 :: _ =>
    match d0.claims.find? (fun c => c.ename == "personalId") with
    | some c => if c.value == "" then none else some c.value
    | none => none

/-- The `person.findUnique` lookup `where personalId` (personalId is unique in
the schema; the first match models the unique row). -/
def findPersonByPersonalId (persons : List Person) (pid : String) :
    Option Person :=
  persons.find? (fun p => p.personalId == pid)

/-- The `person.findUnique` lookup `where id`. -/
def findPersonById (persons : List Person) (pid : Nat) : Option Person :=
  persons.find? (fun p => p.id == pid)

/-- What the single-mode check-status route answers: a 200 carrying a
verification status, or the 502 gateway failure of a hard external error (in
single mode a hard error mutates nothing). -/
inductive CheckStatusResult
  | reported (s : VerificationStatus)
  | sandboxFailure
deriving DecidableEq, Repr

/-- Route `GET /api/verification/check-status/:transactionId`: terminal
short-circuit, lazy expiry, then the external result endpoint; on
`verifyResult = true` the Person lookup and the log update happen inside one
`$transaction`. The Bool records whether the external result endpoint was
called. -/
def checkStatus (now : Nat) (persons : List Person) (resp : VerifierResponse)
    (log : VerificationLogRec) :
    VerificationLogRec × CheckStatusResult × Bool :=
  if log.status ≠ .initiated then
    (log, .reported log.status, false)
  else if isExpiredByClock now log.expiresAt then
    ({ log with status := .expired }, .reported .expired, false)
  else
    match resp with
    | .pending => (log, .reported .initiated, true)
    | .hardError => (log, .sandboxFailure, true)
    | .result r =>
      if r.verifyResult = false then
        ({ log with
            status := .failed, verifyResult := some false,
            resultDescription := some (jsOr r.resultDescription "驗證失敗"),
            returnedData := some r },
         .reported .failed, true)
      else
        match findPersonalId r.data with
        | none =>
          ({ log with
              status := .error_missing_uuid, verifyResult := some true,
              resultDescription := some "驗證成功，但資料缺少 personalId",
              returnedData := some r },
           .reported .error_missing_uuid, true)
        | some pidStr =>
          match findPersonByPersonalId persons pidStr with
          | none =>
            ({ log with
                status := .error_missing_uuid, verifyResult := some true,
                resultDescription := some "驗證成功，但無法在資料庫中關聯使用者",
                returnedData := some r, verifiedPersonId := none },
             .reported .error_missing_uuid, true)
          | some p =>
            ({ log with
                status := .success, verifyResult := some true,
                resultDescription := some (jsOr r.resultDescription "驗證成功"),
                returnedData := some r, verifiedPersonId := some p.id },
             .reported .success, true)

/-- Function `pollAndUpdateBatchLog`: the per-log worker of the batch poll.
Unlike the single-mode route it checks expiry itself, and its catch block
converts a hard external error into this log turning `failed` (so the promise
never rejects and sibling polls are isolated). -/
def pollAndUpdateBatchLog (now : Nat) (persons : List Person)
    (resp : VerifierResponse) (log : VerificationLogRec) : VerificationLogRec :=
  if isExpiredByClock now log.expiresAt then
    { log with status := .expired }
  else
    match resp with
    | .pending => log
    | .hardError =>
      { log with
        status := .failed,
        resultDescription := some "Sandbox 輪詢錯誤" }
    | .result r =>
      if r.verifyResult = false then
        { log with
          status := .failed, verifyResult := some false,
          resultDescription := some (jsOr r.resultDescription "驗證失敗"),
          returnedData := some r }
      else
        match findPersonalId r.data with
        | none =>
          { log with
            status := .error_missing_uuid, verifyResult := some true,
            resultDescription := some "驗證成功，但資料缺少 personalId",
            returnedData := some r }
        | some pidStr =>
          match findPersonByPersonalId persons pidStr with
          | none =>
            { log with
              status := .error_missing_uuid, verifyResult := some true,
              resultDescription := some "驗證成功，但無法在資料庫中關聯使用者",
              returnedData := some r, verifiedPersonId := none }
          | some p =>
            { log with
              status := .success, verifyResult := some true,
              resultDescription := some (jsOr r.resultDescription "驗證成功"),
              returnedData := some r, verifiedPersonId := some p.id }

/-- One entry of the `results` array of the batch status response: the log it
reports on and the status it reports. -/
structure BatchEntry where
  logId : Nat
  status : VerificationStatus
deriving DecidableEq, Repr

/-- The per-log formatting of the batch status response (step 5 of the route):
a success log whose resolved person has since been deleted is reported as
`error_missing_uuid`; every other log reports its stored status. -/
def batchEntryFor (persons : List Person) (log : VerificationLogRec) :
    BatchEntry :=
  match log.status, log.verifiedPersonId with
  | .success, some pid =>
    if (findPersonById persons pid).isSome then ⟨log.id, .success⟩
    else ⟨log.id, .error_missing_uuid⟩
  | s, _ => ⟨log.id, s⟩

/-- Core of route `GET /api/verification/check-batch-status/:uuid` on the logs
of one session: poll every still-`initiated` log (`Promise.allSettled`; the
per-log oracle `resp` is indexed by log id), leave terminal logs untouched,
then re-fetch all logs of the session and format one entry per log. -/
def checkBatchStatus (now : Nat) (persons : List Person)
    (resp : Nat → VerifierResponse) (logs : List VerificationLogRec) :
    List VerificationLogRec × List BatchEntry :=
  let updated := logs.map fun log =>
    if log.status = .initiated then pollAndUpdateBatchLog now persons (resp log.id) log
    else log
  (updated, updated.map (batchEntryFor persons))

/-- The `verificationLog.create` of the request-verification route (single
mode) and of the batch redirect route: a fresh log is `initiated` with its
5-minute window and no verified person. -/
def newVerificationLog (id : Nat) (txId : String) (expiresAt : Nat)
    (sessionId : Option Nat) : VerificationLogRec :=
  { id := id, transactionId := txId, status := .initiated,
    expiresAt := some expiresAt, verifiedPersonId := none, verifyResult := none,
    resultDescription := none, returnedData := none,
    batchVerificationSessionId := sessionId }

/-- The VerificationLog invariant of the spec: `verifiedPersonId` is non-null
iff the status is `success`. -/
def vlogInv (log : VerificationLogRec) : Prop :=
  log.verifiedPersonId.isSome ↔ log.status = .success

/-! ### Batch sessions (src/routes/verification.ts, batch mode) -/

/-- A `BatchVerificationSession` row (the fields the routes touch). -/
structure BatchSession where
  id : Nat
  uuid : String
  status : BatchVerificationStatus
  expiresAt : Option Nat
deriving DecidableEq, Repr

/-- What route `GET /api/verification/check-batch-status/:uuid` answers: a 404
for an unknown uuid, or the consolidated summary (session info echoing the
stored session status, plus one entry per log of the session). -/
inductive BatchStatusResponse
  | notFound
  | summary (sessionStatus : BatchVerificationStatus) (entries : List BatchEntry)
deriving DecidableEq, Repr

/-- Route `GET /api/verification/check-batch-status/:uuid` over the whole
database: find the session by uuid (404 when absent) and — with no check of
the session status or deadline — run the batch poll over the logs linked to
it. Logs of other sessions are untouched. -/
def checkBatchStatusRoute (now : Nat) (persons : List Person)
    (resp : Nat → VerifierResponse) (sessions : List BatchSession)
    (logs : List VerificationLogRec) (uuid : String) :
    List VerificationLogRec × BatchStatusResponse :=
  match sessions.find? (fun s => s.uuid == uuid) with
  | none => (logs, .notFound)
  | some s =>
    let updated := logs.map fun log =>
      if log.batchVerificationSessionId = some s.id ∧ log.status = .initiated then
        pollAndUpdateBatchLog now persons (resp log.id) log
      else log
    (updated,
     .summary s.status
       ((updated.filter fun log => log.batchVerificationSessionId == some s.id).map
         (batchEntryFor persons)))

/-- What route `GET /api/verification/batch/:uuid` (the session redirect)
answers. -/
inductive BatchRedirectOutcome
  | notFound
  | goneClosed
  | goneExpired
  | sandboxError
  | redirected
deriving DecidableEq, Repr

/-- Route `GET /api/verification/batch/:uuid` (the session redirect): validate
that the session exists, is `active` and unexpired — lazily flipping a
past-deadline session to `expired` (410) — then call the external QR endpoint
(`authUri` is its deeplink, `none` modelling a failed or incomplete response)
and on success create a fresh one-shot `initiated` log linked to the session
and redirect (302). -/
def batchRedirect (now : Nat) (sessions : List BatchSession)
    (logs : List VerificationLogRec) (newLogId : Nat) (newTxId : String)
    (authUri : Option String) (uuid : String) :
    List BatchSession × List VerificationLogRec × BatchRedirectOutcome :=
  match sessions.find? (fun s => s.uuid == uuid) with
  | none => (sessions, logs, .notFound)
  | some s =>
    if s.status ≠ .active then (sessions, logs, .goneClosed)
    else if isExpiredByClock now s.expiresAt then
      (sessions.map fun x => if x.id = s.id then { x with status := .expired } else x,
       logs, .goneExpired)
    else
      match authUri with
      | none => (sessions, logs, .sandboxError)
      | some _ =>
        (sessions,
         logs ++ [newVerificationLog newLogId newTxId (now + 5 * 60 * 1000) (some s.id)],
         .redirected)


end WalletServer

namespace WalletServer

/-! ### Helper lemmas on the split machinery -/

theorem asString_toList (s : String) : s.toList.asString = s := by
  cases s; rfl

theorem toList_eq_nil_iff (s : String) : s.toList = [] ↔ s = "" := by
  cases s with
  | mk data => cases data <;> simp [String.toList, String.ext_iff]

theorem lastD_cons_of_ne_nil (x : List Char) (l : List (List Char)) (h : l ≠ []) :
    lastD (x :: l) = lastD l := by
  match l with
  | [] => exact absurd rfl h
  | y :: ys => rfl

theorem startsWithSeq_decomp (sep : List Char) :
    ∀ s : List Char, startsWithSeq sep s = true → s = sep ++ List.drop sep.length s := by
  induction sep with
  | nil => intro s _; simp
  | cons a as ih =>
    intro s hsw
    match s with
    | [] => simp [startsWithSeq] at hsw
    | b :: bs =>
      simp only [startsWithSeq, Bool.and_eq_true, beq_iff_eq] at hsw
      obtain ⟨hab, hrest⟩ := hsw
      have := ih bs hrest
      simp only [List.length_cons, List.cons_append, List.drop_succ_cons]
      rw [hab, ← this]

theorem jsSplitAux_ne_nil (sep : List Char) (fuel : Nat) (s : List Char) :
    jsSplitAux sep fuel s ≠ [] := by
  match fuel, s with
  | _, [] => simp [jsSplitAux]
  | 0, c :: rest => simp [jsSplitAux]
  | fuel+1, c :: rest =>
    simp only [jsSplitAux]
    split
    · simp
    · split <;> simp

theorem jsSplitAux_of_not_occurs (sep : List Char) (fuel : Nat) :
    ∀ s : List Char, occursIn sep s = false → s.length ≤ fuel →
    jsSplitAux sep fuel s = [s] := by
  induction fuel with
  | zero =>
    intro s hocc hlen
    match s with
    | [] => simp [jsSplitAux]
    | c :: rest => simp at hlen
  | succ fuel ih =>
    intro s hocc hlen
    match s with
    | [] => simp [jsSplitAux]
    | c :: rest =>
      simp only [occursIn, Bool.or_eq_false_iff] at hocc
      obtain ⟨h1, h2⟩ := hocc
      simp only [jsSplitAux, h1, Bool.false_eq_true, if_false]
      rw [ih rest h2 (Nat.le_of_succ_le_succ (by simpa using hlen))]

theorem jsSplitAux_lastD_nil (sep : List Char) (hsep : sep ≠ []) (fuel : Nat) :
    ∀ s : List Char, s ≠ [] → s.length ≤ fuel →
    lastD (jsSplitAux sep fuel s) = [] → ∃ pre, s = pre ++ sep := by
  induction fuel with
  | zero =>
    intro s hs hlen
    match s with
    | [] => exact absurd rfl hs
    | c :: rest => simp at hlen
  | succ fuel ih =>
    intro s hs hlen hlast
    match s with
    | c :: rest =>
      by_cases hsw : startsWithSeq sep (c :: rest) = true
      · have hdecomp := startsWithSeq_decomp sep (c :: rest) hsw
        have hstep : jsSplitAux sep (fuel+1) (c :: rest)
            = [] :: jsSplitAux sep fuel (List.drop sep.length (c :: rest)) := by
          simp only [jsSplitAux, hsw, if_true]
        rw [hstep, lastD_cons_of_ne_nil _ _ (jsSplitAux_ne_nil _ _ _)] at hlast
        by_cases hr2 : List.drop sep.length (c :: rest) = []
        · refine ⟨[], ?_⟩
          rw [List.nil_append]
          rw [hr2, List.append_nil] at hdecomp
          exact hdecomp
        · have hlen2 : (List.drop sep.length (c :: rest)).length ≤ fuel := by
            rw [List.length_drop]
            have h1 : 1 ≤ sep.length := by
              have := List.length_pos.mpr hsep; omega
            have h2 : (c :: rest).length ≤ fuel + 1 := hlen
            simp only [List.length_cons] at h2 ⊢
            omega
          obtain ⟨pre, hpre⟩ := ih _ hr2 hlen2 hlast
          refine ⟨sep ++ pre, ?_⟩
          rw [List.append_assoc, ← hpre]
          exact hdecomp
      · have hswf : startsWithSeq sep (c :: rest) = false := by
          revert hsw; cases startsWithSeq sep (c :: rest) <;> simp
        have hstep : jsSplitAux sep (fuel+1) (c :: rest)
            = match jsSplitAux sep fuel rest with
              | [] => [[c]]
              | h :: t => (c :: h) :: t := by
          simp only [jsSplitAux, hswf, Bool.false_eq_true, if_false]
        cases rest with
        | nil =>
          rw [hstep] at hlast
          simp only [jsSplitAux, lastD] at hlast
          simp at hlast
        | cons r rs =>
          rcases hM : jsSplitAux sep fuel (r :: rs) with _ | ⟨h, _ | ⟨t0, t1⟩⟩
          · exact absurd hM (jsSplitAux_ne_nil _ _ _)
          · rw [hstep, hM] at hlast
            simp [lastD] at hlast
          · rw [hstep, hM] at hlast
            have e1 : lastD ((c :: h) :: t0 :: t1) = lastD (t0 :: t1) := rfl
            rw [e1] at hlast
            have hlen2 : (r :: rs).length ≤ fuel := by
              simp only [List.length_cons] at hlen ⊢; omega
            obtain ⟨pre, hpre⟩ := ih (r :: rs) (by simp) hlen2 (by rw [hM]; exact hlast)
            exact ⟨c :: pre, by rw [hpre]; rfl⟩

/-- C1: For every revocation request on a (person, template) pair, if any one
of the external revoke-credential calls made for the pairs issued-with-cid
credentials fails, the whole local transaction is rolled back: the database is
returned unchanged (every IssuedVC row keeps its prior status and the
PersonEligibility row still exists) and the route reports the sandbox
failure. -/
theorem revoke_rollback_on_external_failure
    (revokeOk : String → Bool) (db : RevocationDB) (pid tid : Nat)
    (h : ∃ cid ∈ vcsToRevokeInSandbox db.issuedVCs pid tid, revokeOk cid = false) :
    revokeEligibility revokeOk db pid tid = (db, .sandboxError) := by
  obtain ⟨cid, hmem, hfail⟩ := h
  have hall : (vcsToRevokeInSandbox db.issuedVCs pid tid).all revokeOk = false := by
    rw [List.all_eq_false]
    exact ⟨cid, hmem, by simp [hfail]⟩
  simp [revokeEligibility, hall]

/-- Witness for C1 at a concrete database: one issued credential whose
external revocation fails leaves the database untouched. -/
theorem revoke_rollback_on_external_failure_witness :
    (∃ cid ∈ vcsToRevokeInSandbox
        [⟨1, 7, 3, .issued, some "cidA", some 5⟩] 7 3, (fun _ => false) cid = false) ∧
    revokeEligibility (fun _ => false)
        ⟨[⟨1, 7, 3, .issued, some "cidA", some 5⟩], [⟨7, 3⟩]⟩ 7 3 =
      (⟨[⟨1, 7, 3, .issued, some "cidA", some 5⟩], [⟨7, 3⟩]⟩, .sandboxError) :=
  ⟨⟨"cidA", by decide, rfl⟩,
   revoke_rollback_on_external_failure (fun _ => false)
     ⟨[⟨1, 7, 3, .issued, some "cidA", some 5⟩], [⟨7, 3⟩]⟩ 7 3
     ⟨"cidA", by decide, rfl⟩⟩

/-- C2: if every external revoke call for the pairs issued-with-cid
credentials succeeds, then afterwards every IssuedVC row of the pair —
regardless of its prior status — has status `revoked`, rows of other pairs are
untouched, and no PersonEligibility row for the pair remains. -/
theorem revoke_success_marks_all_and_deletes_eligibility
    (revokeOk : String → Bool) (db : RevocationDB) (pid tid : Nat)
    (h : ∀ cid ∈ vcsToRevokeInSandbox db.issuedVCs pid tid, revokeOk cid = true) :
    (revokeEligibility revokeOk db pid tid).2 = .ok ∧
    (∀ vc ∈ (revokeEligibility revokeOk db pid tid).1.issuedVCs,
      vcMatchesPair pid tid vc = true → vc.status = .revoked) ∧
    (∀ vc ∈ db.issuedVCs, vcMatchesPair pid tid vc = false →
      vc ∈ (revokeEligibility revokeOk db pid tid).1.issuedVCs) ∧
    (∀ e ∈ (revokeEligibility revokeOk db pid tid).1.eligibilities,
      ¬(e.personId = pid ∧ e.templateId = tid)) := by
  have hall : (vcsToRevokeInSandbox db.issuedVCs pid tid).all revokeOk = true :=
    List.all_eq_true.mpr fun cid hmem => by simp [h cid hmem]
  refine ⟨by simp [revokeEligibility, hall], ?_, ?_, ?_⟩
  · intro vc hvc hmatch
    simp only [revokeEligibility, hall, if_true, List.mem_map] at hvc
    obtain ⟨vc₀, _, heq⟩ := hvc
    by_cases hm : vcMatchesPair pid tid vc₀ = true
    · simp [hm] at heq
      rw [← heq]
    · rw [if_neg (by simp [hm])] at heq
      subst heq
      simp [hm] at hmatch
  · intro vc hvc hmatch
    simp only [revokeEligibility, hall, if_true, List.mem_map]
    exact ⟨vc, hvc, by simp [hmatch]⟩
  · intro e he
    simp only [revokeEligibility, hall, if_true, List.mem_filter] at he
    intro ⟨h1, h2⟩
    simp [h1, h2] at he

/-- Witness for C2: with one issued row, one lapsed (expired) row of the same
pair, one row of a different template, and an all-succeeding external revoke
oracle, both pair rows end revoked, the other-template row survives, and the
pairs eligibility is gone. -/
theorem revoke_success_marks_all_and_deletes_eligibility_witness :
    (∀ cid ∈ vcsToRevokeInSandbox
        [⟨1, 7, 3, .issued, some "cidA", some 5⟩,
         ⟨2, 7, 3, .expired, none, none⟩,
         ⟨3, 7, 4, .issued, some "cidB", some 6⟩] 7 3, (fun _ => true) cid = true) ∧
    ((revokeEligibility (fun _ => true)
        ⟨[⟨1, 7, 3, .issued, some "cidA", some 5⟩,
          ⟨2, 7, 3, .expired, none, none⟩,
          ⟨3, 7, 4, .issued, some "cidB", some 6⟩], [⟨7, 3⟩, ⟨7, 4⟩]⟩ 7 3).2 = .ok ∧
      (∀ vc ∈ (revokeEligibility (fun _ => true)
        ⟨[⟨1, 7, 3, .issued, some "cidA", some 5⟩,
          ⟨2, 7, 3, .expired, none, none⟩,
          ⟨3, 7, 4, .issued, some "cidB", some 6⟩], [⟨7, 3⟩, ⟨7, 4⟩]⟩ 7 3).1.issuedVCs,
        vcMatchesPair 7 3 vc = true → vc.status = .revoked) ∧
      (∀ vc ∈ ([⟨1, 7, 3, .issued, some "cidA", some 5⟩,
          ⟨2, 7, 3, .expired, none, none⟩,
          ⟨3, 7, 4, .issued, some "cidB", some 6⟩] : List IssuedVC),
        vcMatchesPair 7 3 vc = false →
        vc ∈ (revokeEligibility (fun _ => true)
          ⟨[⟨1, 7, 3, .issued, some "cidA", some 5⟩,
            ⟨2, 7, 3, .expired, none, none⟩,
            ⟨3, 7, 4, .issued, some "cidB", some 6⟩], [⟨7, 3⟩, ⟨7, 4⟩]⟩ 7 3).1.issuedVCs) ∧
      (∀ e ∈ (revokeEligibility (fun _ => true)
        ⟨[⟨1, 7, 3, .issued, some "cidA", some 5⟩,
          ⟨2, 7, 3, .expired, none, none⟩,
          ⟨3, 7, 4, .issued, some "cidB", some 6⟩], [⟨7, 3⟩, ⟨7, 4⟩]⟩ 7 3).1.eligibilities,
        ¬(e.personId = 7 ∧ e.templateId = 3))) :=
  ⟨fun _ _ => rfl,
   revoke_success_marks_all_and_deletes_eligibility (fun _ => true)
     ⟨[⟨1, 7, 3, .issued, some "cidA", some 5⟩,
       ⟨2, 7, 3, .expired, none, none⟩,
       ⟨3, 7, 4, .issued, some "cidB", some 6⟩], [⟨7, 3⟩, ⟨7, 4⟩]⟩ 7 3
     (fun _ _ => rfl)⟩

/-- C9: for every decoded credential token whose jti claim is a non-empty
string in which the separator `credential/` does not occur,
`decodeCidFromCredential` returns the entire jti as the cid rather than
raising NO_CID; and NO_CID is reachable only for a jti that ends with
`credential/` (the final split segment is empty). -/
theorem decodeCid_whole_jti_and_no_cid_only_at_suffix (jti : String)
    (hne : jti ≠ "") :
    (occursIn "credential/".toList jti.toList = false →
      decodeCidFromCredential (some jti) = .ok jti) ∧
    (decodeCidFromCredential (some jti) = .error .NO_CID →
      ∃ pre, jti.toList = pre ++ "credential/".toList) := by
  constructor
  · intro hocc
    have hsplit : jsSplit "credential/".toList jti.toList = [jti.toList] :=
      jsSplitAux_of_not_occurs _ _ _ hocc (Nat.le_refl _)
    have hnil : jti.toList ≠ [] := fun h => hne ((toList_eq_nil_iff jti).mp h)
    simp only [decodeCidFromCredential, hne, if_false, hsplit]
    have hlast : lastD [jti.toList] = jti.toList := rfl
    rw [hlast, if_neg hnil, asString_toList]
  · intro herr
    simp only [decodeCidFromCredential, hne, if_false] at herr
    by_cases hcid : lastD (jsSplit "credential/".toList jti.toList) = []
    · exact jsSplitAux_lastD_nil _ (by decide) _ _
        (fun h => hne ((toList_eq_nil_iff jti).mp h)) (Nat.le_refl _) hcid
    · rw [if_neg hcid] at herr
      exact absurd herr (by simp)

/-- Witness for C9: a jti with no `credential/` inside comes back whole as the
cid, and a jti ending in `credential/` raises NO_CID and indeed has the
separator as a final segment. -/
theorem decodeCid_whole_jti_and_no_cid_only_at_suffix_witness :
    ("abc123" ≠ "" ∧ occursIn "credential/".toList "abc123".toList = false ∧
      decodeCidFromCredential (some "abc123") = .ok "abc123") ∧
    ("https://x/api/credential/" ≠ "" ∧
      decodeCidFromCredential (some "https://x/api/credential/") = .error .NO_CID ∧
      ∃ pre, "https://x/api/credential/".toList = pre ++ "credential/".toList) :=
  ⟨⟨by decide, by decide,
    (decodeCid_whole_jti_and_no_cid_only_at_suffix "abc123" (by decide)).1 (by decide)⟩,
   ⟨by decide, by rfl,
    (decodeCid_whole_jti_and_no_cid_only_at_suffix "https://x/api/credential/"
      (by decide)).2 (by rfl)⟩⟩

/-- C3: polling a non-terminal, unexpired issuance log when the external
endpoint returns a credential token whose jti decodes to cid extracts the cid
as the segment after `credential/` and in one step sets the IssuanceLog to
user_claimed and the IssuedVC to issued with that cid and issuedAt = now; in
particular a jti encoding id abc123 yields an issued poll result with cid
abc123. -/
theorem issuance_poll_claims_credential
    (now : Nat) (st : IssuancePollState) (jti cid : String)
    (hlog : st.log.status = .initiated)
    (hexp : isExpiredByClock now st.log.expiresAt = false)
    (hcid : decodeCidFromCredential (some jti) = .ok cid) :
    issuanceStatusPoll now (.credential (some jti)) st =
      (⟨{ st.log with status := .user_claimed },
        { st.vc with status := .issued, cid := some cid, issuedAt := some now }⟩,
       .issued, true) ∧
    issuanceStatusPoll 1000
        (.credential (some "https://x/api/credential/abc123"))
        ⟨⟨21, "tx21", .initiated, some 2000⟩, ⟨31, 7, 3, .issuing, none, none⟩⟩ =
      (⟨⟨21, "tx21", .user_claimed, some 2000⟩,
        ⟨31, 7, 3, .issued, some "abc123", some 1000⟩⟩, .issued, true) := by
  constructor
  · simp only [issuanceStatusPoll, getFinalStatusResponse, hlog, handleExpiryIfNeeded,
      hexp, checkSandboxAndUpdateStatus, hcid]
    simp
  · rfl

/-- Witness for C3 at a concrete state and a concrete credential token. -/
theorem issuance_poll_claims_credential_witness :
    ((⟨⟨4, "tx4", .initiated, some 9000⟩, ⟨5, 8, 2, .issuing, none, none⟩⟩ :
        IssuancePollState).log.status = .initiated ∧
      isExpiredByClock 100 (some 9000) = false ∧
      decodeCidFromCredential (some "https://x/api/credential/zz9") = .ok "zz9") ∧
    (issuanceStatusPoll 100 (.credential (some "https://x/api/credential/zz9"))
        ⟨⟨4, "tx4", .initiated, some 9000⟩, ⟨5, 8, 2, .issuing, none, none⟩⟩ =
      (⟨⟨4, "tx4", .user_claimed, some 9000⟩,
        ⟨5, 8, 2, .issued, some "zz9", some 100⟩⟩, .issued, true) ∧
     issuanceStatusPoll 1000
        (.credential (some "https://x/api/credential/abc123"))
        ⟨⟨21, "tx21", .initiated, some 2000⟩, ⟨31, 7, 3, .issuing, none, none⟩⟩ =
      (⟨⟨21, "tx21", .user_claimed, some 2000⟩,
        ⟨31, 7, 3, .issued, some "abc123", some 1000⟩⟩, .issued, true)) :=
  ⟨⟨rfl, rfl, rfl⟩,
   issuance_poll_claims_credential 100
     ⟨⟨4, "tx4", .initiated, some 9000⟩, ⟨5, 8, 2, .issuing, none, none⟩⟩
     "https://x/api/credential/zz9" "zz9" rfl rfl rfl⟩

/-- C4: polling a still-pending log whose deadline is past returns expired and
transitions stored state exactly once — for issuance both IssuanceLog and
IssuedVC turn expired in one step, for verification the log turns expired —
and every subsequent poll of the same log is a no-op returning the same
expired result without touching state or the external endpoint. -/
theorem poll_past_expiry_transitions_once
    (now t tv : Nat) (resp : NonceResponse) (st : IssuancePollState)
    (persons : List Person) (vresp : VerifierResponse) (vlog : VerificationLogRec)
    (hlog : st.log.status = .initiated)
    (ht : st.log.expiresAt = some t) (hnow : t < now)
    (hv : vlog.status = .initiated)
    (htv : vlog.expiresAt = some tv) (hnv : tv < now) :
    issuanceStatusPoll now resp st =
      (⟨{ st.log with status := .expired }, { st.vc with status := .expired }⟩,
       .expired, false) ∧
    (∀ now2 resp2,
      issuanceStatusPoll now2 resp2
          ⟨{ st.log with status := .expired }, { st.vc with status := .expired }⟩ =
        (⟨{ st.log with status := .expired }, { st.vc with status := .expired }⟩,
         .expired, false)) ∧
    checkStatus now persons vresp vlog =
      ({ vlog with status := .expired }, .reported .expired, false) ∧
    (∀ now2 persons2 vresp2,
      checkStatus now2 persons2 vresp2 { vlog with status := .expired } =
        ({ vlog with status := .expired }, .reported .expired, false)) := by
  refine ⟨?_, ?_, ?_, ?_⟩
  · simp [issuanceStatusPoll, getFinalStatusResponse, hlog, handleExpiryIfNeeded,
      isExpiredByClock, ht, hnow]
  · intro now2 resp2
    simp [issuanceStatusPoll, getFinalStatusResponse]
  · simp [checkStatus, hv, isExpiredByClock, htv, hnv]
  · intro now2 persons2 vresp2
    simp [checkStatus]

/-- Witness for C4 at concrete expired issuance and verification logs. -/
theorem poll_past_expiry_transitions_once_witness :
    ((⟨⟨1, "txA", .initiated, some 10⟩, ⟨2, 3, 4, .issuing, none, none⟩⟩ :
        IssuancePollState).log.status = .initiated ∧
      (10 : Nat) < 50 ∧
      (⟨9, "txB", .initiated, some 20, none, none, none, none, none⟩ :
        VerificationLogRec).status = .initiated ∧ (20 : Nat) < 50) ∧
    (issuanceStatusPoll 50 .pendingError
        ⟨⟨1, "txA", .initiated, some 10⟩, ⟨2, 3, 4, .issuing, none, none⟩⟩ =
      (⟨⟨1, "txA", .expired, some 10⟩, ⟨2, 3, 4, .expired, none, none⟩⟩,
       .expired, false) ∧
     checkStatus 50 [] .pending
        ⟨9, "txB", .initiated, some 20, none, none, none, none, none⟩ =
      (⟨9, "txB", .expired, some 20, none, none, none, none, none⟩,
       .reported .expired, false)) :=
  ⟨⟨rfl, by decide, rfl, by decide⟩,
   ⟨(poll_past_expiry_transitions_once 50 10 20 .pendingError
       ⟨⟨1, "txA", .initiated, some 10⟩, ⟨2, 3, 4, .issuing, none, none⟩⟩
       [] .pending ⟨9, "txB", .initiated, some 20, none, none, none, none, none⟩
       rfl rfl (by decide) rfl rfl (by decide)).1,
    (poll_past_expiry_transitions_once 50 10 20 .pendingError
       ⟨⟨1, "txA", .initiated, some 10⟩, ⟨2, 3, 4, .issuing, none, none⟩⟩
       [] .pending ⟨9, "txB", .initiated, some 20, none, none, none, none, none⟩
       rfl rfl (by decide) rfl rfl (by decide)).2.2.1⟩⟩

/-- C5: polling a terminal log is an idempotent no-op: the stored result is
returned immediately, no external call is made, and the stored state is
unchanged — for issuance when the log is user_claimed or expired, for
verification for any non-initiated status. -/
theorem terminal_poll_is_idempotent_noop
    (now : Nat) (resp : NonceResponse) (st : IssuancePollState)
    (persons : List Person) (vresp : VerifierResponse) (vlog : VerificationLogRec)
    (hterm : st.log.status = .user_claimed ∨ st.log.status = .expired)
    (hvterm : vlog.status ≠ .initiated) :
    issuanceStatusPoll now resp st =
      (st, if st.log.status = .user_claimed then .issued else .expired, false) ∧
    checkStatus now persons vresp vlog = (vlog, .reported vlog.status, false) := by
  constructor
  · rcases hterm with h | h <;>
      simp [issuanceStatusPoll, getFinalStatusResponse, h]
  · simp [checkStatus, hvterm]

/-- Witness for C5 at a user_claimed issuance log and a failed verification
log. -/
theorem terminal_poll_is_idempotent_noop_witness :
    ((⟨⟨1, "txA", .user_claimed, some 10⟩, ⟨2, 3, 4, .issued, some "c1", some 5⟩⟩ :
        IssuancePollState).log.status = .user_claimed ∧
      (⟨9, "txB", .failed, some 20, none, some false, some "bad", none, none⟩ :
        VerificationLogRec).status ≠ .initiated) ∧
    (issuanceStatusPoll 99 .otherError
        ⟨⟨1, "txA", .user_claimed, some 10⟩, ⟨2, 3, 4, .issued, some "c1", some 5⟩⟩ =
      (⟨⟨1, "txA", .user_claimed, some 10⟩, ⟨2, 3, 4, .issued, some "c1", some 5⟩⟩,
       if (IssuanceLogStatus.user_claimed = .user_claimed) then .issued else .expired,
       false) ∧
     checkStatus 99 [] .hardError
        ⟨9, "txB", .failed, some 20, none, some false, some "bad", none, none⟩ =
      (⟨9, "txB", .failed, some 20, none, some false, some "bad", none, none⟩,
       .reported .failed, false)) :=
  ⟨⟨rfl, by decide⟩,
   terminal_poll_is_idempotent_noop 99 .otherError
     ⟨⟨1, "txA", .user_claimed, some 10⟩, ⟨2, 3, 4, .issued, some "c1", some 5⟩⟩
     [] .hardError ⟨9, "txB", .failed, some 20, none, some false, some "bad", none, none⟩
     (Or.inl rfl) (by decide)⟩

/-- C6: in a single-mode poll with an external result of verifyResult = true,
the personal identifier is looked up in the first claim set; if absent the log
turns error_missing_uuid; if present, in one transaction the Person lookup by
that identifier decides: not found turns the log error_missing_uuid with no
verified person, found turns it success with verifiedPersonId set to the
person id. -/
theorem single_poll_success_resolves_person
    (now : Nat) (persons : List Person) (r : VpResultResponse)
    (log : VerificationLogRec)
    (hst : log.status = .initiated)
    (hexp : isExpiredByClock now log.expiresAt = false)
    (hvr : r.verifyResult = true) :
    (findPersonalId r.data = none →
      checkStatus now persons (.result r) log =
        ({ log with
           status := .error_missing_uuid, verifyResult := some true,
           resultDescription := some "驗證成功，但資料缺少 personalId",
           returnedData := some r },
         .reported .error_missing_uuid, true)) ∧
    (∀ pidStr, findPersonalId r.data = some pidStr →
      (findPersonByPersonalId persons pidStr = none →
        checkStatus now persons (.result r) log =
          ({ log with
             status := .error_missing_uuid, verifyResult := some true,
             resultDescription := some "驗證成功，但無法在資料庫中關聯使用者",
             returnedData := some r, verifiedPersonId := none },
           .reported .error_missing_uuid, true)) ∧
      (∀ p, findPersonByPersonalId persons pidStr = some p →
        checkStatus now persons (.result r) log =
          ({ log with
             status := .success, verifyResult := some true,
             resultDescription := some (jsOr r.resultDescription "驗證成功"),
             returnedData := some r, verifiedPersonId := some p.id },
           .reported .success, true))) := by
  refine ⟨?_, ?_⟩
  · intro hnone
    simp [checkStatus, hst, hexp, hvr, hnone]
  · intro pidStr hsome
    refine ⟨?_, ?_⟩
    · intro hpnone
      simp [checkStatus, hst, hexp, hvr, hsome, hpnone]
    · intro p hp
      simp [checkStatus, hst, hexp, hvr, hsome, hp]

/-- Witness for C6: a result naming personalId P1 resolves against a database
holding P1 and turns the log success with that person linked. -/
theorem single_poll_success_resolves_person_witness :
    ((⟨9, "txC", .initiated, some 500, none, none, none, none, none⟩ :
        VerificationLogRec).status = .initiated ∧
      isExpiredByClock 100 (some 500) = false ∧
      (⟨[⟨"vc1", [⟨"personalId", "身分證字號", "P1"⟩]⟩], true, "ok"⟩ :
        VpResultResponse).verifyResult = true ∧
      findPersonalId [⟨"vc1", [⟨"personalId", "身分證字號", "P1"⟩]⟩] = some "P1" ∧
      findPersonByPersonalId [⟨41, "P1"⟩] "P1" = some ⟨41, "P1"⟩) ∧
    checkStatus 100 [⟨41, "P1"⟩]
        (.result ⟨[⟨"vc1", [⟨"personalId", "身分證字號", "P1"⟩]⟩], true, "ok"⟩)
        ⟨9, "txC", .initiated, some 500, none, none, none, none, none⟩ =
      (⟨9, "txC", .success, some 500, some 41, some true, some "ok",
        some ⟨[⟨"vc1", [⟨"personalId", "身分證字號", "P1"⟩]⟩], true, "ok"⟩, none⟩,
       .reported .success, true) :=
  ⟨⟨rfl, rfl, rfl, rfl, rfl⟩,
   ((single_poll_success_resolves_person 100 [⟨41, "P1"⟩]
       ⟨[⟨"vc1", [⟨"personalId", "身分證字號", "P1"⟩]⟩], true, "ok"⟩
       ⟨9, "txC", .initiated, some 500, none, none, none, none, none⟩
       rfl rfl rfl).2 "P1" rfl).2 ⟨41, "P1"⟩ rfl⟩

/-- Every branch of the batch per-log poll keeps the log id. -/
theorem pollAndUpdateBatchLog_id (now : Nat) (persons : List Person)
    (resp : VerifierResponse) (log : VerificationLogRec) :
    (pollAndUpdateBatchLog now persons resp log).id = log.id := by
  unfold pollAndUpdateBatchLog
  repeat' split
  all_goals rfl

/-- A batch response entry always names the log it was formatted from. -/
theorem batchEntryFor_logId (persons : List Person) (log : VerificationLogRec) :
    (batchEntryFor persons log).logId = log.id := by
  unfold batchEntryFor
  repeat' split
  all_goals rfl

/-- C7: the batch poll has all-settled semantics: with a hard external error
on one pending log, that log alone turns failed, every sibling pending log is
still polled with its own response, terminal logs are kept, the batch
completes, and the response carries one entry for every log of the session. -/
theorem batch_poll_isolates_failures
    (now : Nat) (persons : List Person) (resp : Nat → VerifierResponse)
    (logs : List VerificationLogRec) (L : VerificationLogRec)
    (hL : L ∈ logs) (hLst : L.status = .initiated)
    (hLexp : isExpiredByClock now L.expiresAt = false)
    (hLresp : resp L.id = .hardError) :
    (checkBatchStatus now persons resp logs).1.length = logs.length ∧
    (checkBatchStatus now persons resp logs).2.length = logs.length ∧
    { L with status := .failed, resultDescription := some "Sandbox 輪詢錯誤" }
      ∈ (checkBatchStatus now persons resp logs).1 ∧
    (∀ M ∈ logs, M.status = .initiated →
      pollAndUpdateBatchLog now persons (resp M.id) M
        ∈ (checkBatchStatus now persons resp logs).1) ∧
    (∀ M ∈ logs, M.status ≠ .initiated →
      M ∈ (checkBatchStatus now persons resp logs).1) ∧
    (∀ M ∈ logs, ∃ e ∈ (checkBatchStatus now persons resp logs).2,
      e.logId = M.id) := by
  refine ⟨by simp [checkBatchStatus], by simp [checkBatchStatus], ?_, ?_, ?_, ?_⟩
  · have hpoll : pollAndUpdateBatchLog now persons (resp L.id) L =
        { L with status := .failed, resultDescription := some "Sandbox 輪詢錯誤" } := by
      simp [pollAndUpdateBatchLog, hLexp, hLresp]
    have : (fun log => if log.status = VerificationStatus.initiated
        then pollAndUpdateBatchLog now persons (resp log.id) log else log) L =
        { L with status := .failed, resultDescription := some "Sandbox 輪詢錯誤" } := by
      simp [hLst, hpoll]
    exact this ▸ List.mem_map_of_mem _ hL
  · intro M hM hMst
    have : (fun log => if log.status = VerificationStatus.initiated
        then pollAndUpdateBatchLog now persons (resp log.id) log else log) M =
        pollAndUpdateBatchLog now persons (resp M.id) M := by
      simp [hMst]
    exact this ▸ List.mem_map_of_mem _ hM
  · intro M hM hMst
    have : (fun log => if log.status = VerificationStatus.initiated
        then pollAndUpdateBatchLog now persons (resp log.id) log else log) M = M := by
      simp [hMst]
    exact this ▸ List.mem_map_of_mem _ hM
  · intro M hM
    refine ⟨batchEntryFor persons
        ((fun log => if log.status = VerificationStatus.initiated
          then pollAndUpdateBatchLog now persons (resp log.id) log else log) M), ?_, ?_⟩
    · simp only [checkBatchStatus]
      exact List.mem_map_of_mem _ (List.mem_map_of_mem _ hM)
    · rw [batchEntryFor_logId]
      by_cases h : M.status = VerificationStatus.initiated
      · simp [h, pollAndUpdateBatchLog_id]
      · simp [h]

/-- Witness for C7: three pending logs, two clean results (one resolving a
person, one failing verification) and one hard error: the batch completes
with the hard-error log failed and three entries. -/
theorem batch_poll_isolates_failures_witness :
    ((⟨3, "t3", .initiated, some 900, none, none, none, none, some 1⟩ :
        VerificationLogRec) ∈
      ([⟨1, "t1", .initiated, some 900, none, none, none, none, some 1⟩,
        ⟨2, "t2", .initiated, some 900, none, none, none, none, some 1⟩,
        ⟨3, "t3", .initiated, some 900, none, none, none, none, some 1⟩] :
        List VerificationLogRec) ∧
      (⟨3, "t3", .initiated, some 900, none, none, none, none, some 1⟩ :
        VerificationLogRec).status = .initiated ∧
      isExpiredByClock 100 (some 900) = false ∧
      (fun i => if i = 1 then VerifierResponse.result
          ⟨[⟨"vc1", [⟨"personalId", "n", "P1"⟩]⟩], true, "ok"⟩
        else if i = 2 then VerifierResponse.result ⟨[], false, "no"⟩
        else VerifierResponse.hardError) 3 = .hardError) ∧
    ((checkBatchStatus 100 [⟨41, "P1"⟩]
        (fun i => if i = 1 then VerifierResponse.result
            ⟨[⟨"vc1", [⟨"personalId", "n", "P1"⟩]⟩], true, "ok"⟩
          else if i = 2 then VerifierResponse.result ⟨[], false, "no"⟩
          else VerifierResponse.hardError)
        [⟨1, "t1", .initiated, some 900, none, none, none, none, some 1⟩,
         ⟨2, "t2", .initiated, some 900, none, none, none, none, some 1⟩,
         ⟨3, "t3", .initiated, some 900, none, none, none, none, some 1⟩]).2.length = 3 ∧
     (⟨3, "t3", .failed, some 900, none, none, some "Sandbox 輪詢錯誤", none, some 1⟩ :
        VerificationLogRec) ∈
      (checkBatchStatus 100 [⟨41, "P1"⟩]
        (fun i => if i = 1 then VerifierResponse.result
            ⟨[⟨"vc1", [⟨"personalId", "n", "P1"⟩]⟩], true, "ok"⟩
          else if i = 2 then VerifierResponse.result ⟨[], false, "no"⟩
          else VerifierResponse.hardError)
        [⟨1, "t1", .initiated, some 900, none, none, none, none, some 1⟩,
         ⟨2, "t2", .initiated, some 900, none, none, none, none, some 1⟩,
         ⟨3, "t3", .initiated, some 900, none, none, none, none, some 1⟩]).1) :=
  ⟨⟨by decide, rfl, rfl, rfl⟩,
   ⟨(batch_poll_isolates_failures 100 [⟨41, "P1"⟩]
       (fun i => if i = 1 then VerifierResponse.result
           ⟨[⟨"vc1", [⟨"personalId", "n", "P1"⟩]⟩], true, "ok"⟩
         else if i = 2 then VerifierResponse.result ⟨[], false, "no"⟩
         else VerifierResponse.hardError)
       [⟨1, "t1", .initiated, some 900, none, none, none, none, some 1⟩,
        ⟨2, "t2", .initiated, some 900, none, none, none, none, some 1⟩,
        ⟨3, "t3", .initiated, some 900, none, none, none, none, some 1⟩]
       ⟨3, "t3", .initiated, some 900, none, none, none, none, some 1⟩
       (by decide) rfl rfl rfl).2.1,
    (batch_poll_isolates_failures 100 [⟨41, "P1"⟩]
       (fun i => if i = 1 then VerifierResponse.result
           ⟨[⟨"vc1", [⟨"personalId", "n", "P1"⟩]⟩], true, "ok"⟩
         else if i = 2 then VerifierResponse.result ⟨[], false, "no"⟩
         else VerifierResponse.hardError)
       [⟨1, "t1", .initiated, some 900, none, none, none, none, some 1⟩,
        ⟨2, "t2", .initiated, some 900, none, none, none, none, some 1⟩,
        ⟨3, "t3", .initiated, some 900, none, none, none, none, some 1⟩]
       ⟨3, "t3", .initiated, some 900, none, none, none, none, some 1⟩
       (by decide) rfl rfl rfl).2.2.1⟩⟩


/-- The single-mode poll preserves the verified-person invariant. -/
theorem checkStatus_preserves_inv (now : Nat) (persons : List Person)
    (resp : VerifierResponse) (log : VerificationLogRec) (hinv : vlogInv log) :
    vlogInv (checkStatus now persons resp log).1 := by
  unfold checkStatus
  repeat' split
  all_goals try exact hinv
  all_goals simp_all [vlogInv]

/-- The batch per-log poll preserves the verified-person invariant on the
pending logs it is invoked on (the route fetches only initiated logs). -/
theorem pollAndUpdateBatchLog_preserves_inv (now : Nat) (persons : List Person)
    (resp : VerifierResponse) (log : VerificationLogRec)
    (hst : log.status = .initiated) (hinv : vlogInv log) :
    vlogInv (pollAndUpdateBatchLog now persons resp log) := by
  unfold pollAndUpdateBatchLog
  repeat' split
  all_goals try exact hinv
  all_goals simp_all [vlogInv]

/-- C8: verifiedPersonId is non-null iff the status is success, and every
operation that creates or updates a VerificationLog — the single-mode poll
(including its expiry and failure transitions), the batch per-log poll on a
pending log, log creation, and the whole batch poll — preserves this
invariant. -/
theorem verification_log_invariant_preserved
    (now : Nat) (persons : List Person) (resp : VerifierResponse)
    (log : VerificationLogRec) (hinv : vlogInv log)
    (nid : Nat) (txId : String) (expAt : Nat) (sid : Option Nat)
    (respF : Nat → VerifierResponse) (logs : List VerificationLogRec)
    (hlogs : ∀ l ∈ logs, vlogInv l) :
    vlogInv (checkStatus now persons resp log).1 ∧
    (log.status = .initiated → vlogInv (pollAndUpdateBatchLog now persons resp log)) ∧
    vlogInv (newVerificationLog nid txId expAt sid) ∧
    (∀ l ∈ (checkBatchStatus now persons respF logs).1, vlogInv l) := by
  refine ⟨checkStatus_preserves_inv now persons resp log hinv,
    fun h => pollAndUpdateBatchLog_preserves_inv now persons resp log h hinv,
    by simp [vlogInv, newVerificationLog], ?_⟩
  intro l hl
  simp only [checkBatchStatus, List.mem_map] at hl
  obtain ⟨M, hM, hEq⟩ := hl
  subst hEq
  by_cases h : M.status = VerificationStatus.initiated
  · rw [if_pos h]
    exact pollAndUpdateBatchLog_preserves_inv now persons (respF M.id) M h (hlogs M hM)
  · rw [if_neg h]
    exact hlogs M hM

/-- Witness for C8 at a concrete log, creation, and batch database. -/
theorem verification_log_invariant_preserved_witness :
    (vlogInv (⟨9, "txB", .initiated, some 20, none, none, none, none, none⟩ :
        VerificationLogRec) ∧
      (∀ l ∈ ([⟨1, "t1", .initiated, some 900, none, none, none, none, some 1⟩,
          ⟨2, "t2", .success, some 900, some 41, some true, some "ok", none, some 1⟩] :
          List VerificationLogRec), vlogInv l)) ∧
    (vlogInv (checkStatus 50 [] .hardError
        ⟨9, "txB", .initiated, some 20, none, none, none, none, none⟩).1 ∧
      vlogInv (newVerificationLog 11 "txN" 700 none) ∧
      (∀ l ∈ (checkBatchStatus 50 [] (fun _ => .hardError)
          [⟨1, "t1", .initiated, some 900, none, none, none, none, some 1⟩,
           ⟨2, "t2", .success, some 900, some 41, some true, some "ok", none, some 1⟩]).1,
        vlogInv l)) :=
  ⟨⟨by simp [vlogInv], by simp [vlogInv]⟩,
   ⟨(verification_log_invariant_preserved 50 [] .hardError
       ⟨9, "txB", .initiated, some 20, none, none, none, none, none⟩ (by simp [vlogInv])
       11 "txN" 700 none (fun _ => .hardError)
       [⟨1, "t1", .initiated, some 900, none, none, none, none, some 1⟩,
        ⟨2, "t2", .success, some 900, some 41, some true, some "ok", none, some 1⟩]
       (by simp [vlogInv])).1,
    (verification_log_invariant_preserved 50 [] .hardError
       ⟨9, "txB", .initiated, some 20, none, none, none, none, none⟩ (by simp [vlogInv])
       11 "txN" 700 none (fun _ => .hardError)
       [⟨1, "t1", .initiated, some 900, none, none, none, none, some 1⟩,
        ⟨2, "t2", .success, some 900, some 41, some true, some "ok", none, some 1⟩]
       (by simp [vlogInv])).2.2.1,
    (verification_log_invariant_preserved 50 [] .hardError
       ⟨9, "txB", .initiated, some 20, none, none, none, none, none⟩ (by simp [vlogInv])
       11 "txN" 700 none (fun _ => .hardError)
       [⟨1, "t1", .initiated, some 900, none, none, none, none, some 1⟩,
        ⟨2, "t2", .success, some 900, some 41, some true, some "ok", none, some 1⟩]
       (by simp [vlogInv])).2.2.2⟩⟩

/-- C10: the batch status route enforces no session-level gate: for an
existing session, changing its stored status or deadline arbitrarily changes
neither which logs get polled nor the entries of the summary (the summary
merely echoes the stored status), so even closed or past-deadline sessions are
polled; the session status and deadline are checked only by the session
redirect route, which lazily flips a past-deadline active session to expired
and rejects non-active sessions. -/
theorem batch_status_no_session_gate_and_redirect_gate
    (now : Nat) (persons : List Person) (resp : Nat → VerifierResponse)
    (logs : List VerificationLogRec) (s : BatchSession)
    (nid t : Nat) (ntx : String) (au : Option String) :
    (∀ st e,
      (checkBatchStatusRoute now persons resp
          [{ s with status := st, expiresAt := e }] logs s.uuid).1
        = (checkBatchStatusRoute now persons resp [s] logs s.uuid).1) ∧
    (∀ st e, ∃ es,
      (checkBatchStatusRoute now persons resp
          [{ s with status := st, expiresAt := e }] logs s.uuid).2
        = .summary st es ∧
      (checkBatchStatusRoute now persons resp [s] logs s.uuid).2
        = .summary s.status es) ∧
    (s.status = .active → s.expiresAt = some t → t < now →
      batchRedirect now [s] logs nid ntx au s.uuid =
        ([{ s with status := .expired }], logs, .goneExpired)) ∧
    (s.status ≠ .active →
      batchRedirect now [s] logs nid ntx au s.uuid = ([s], logs, .goneClosed)) := by
  refine ⟨?_, ?_, ?_, ?_⟩
  · intro st e
    simp [checkBatchStatusRoute, List.find?]
  · intro st e
    refine ⟨((logs.map fun log =>
        if log.batchVerificationSessionId = some s.id ∧ log.status = .initiated then
          pollAndUpdateBatchLog now persons (resp log.id) log
        else log).filter fun log =>
          log.batchVerificationSessionId == some s.id).map
        (batchEntryFor persons), ?_, ?_⟩
    · simp [checkBatchStatusRoute, List.find?]
    · simp [checkBatchStatusRoute, List.find?]
  · intro hact hexp hlt
    simp [batchRedirect, List.find?, hact, isExpiredByClock, hexp, hlt]
  · intro hact
    simp [batchRedirect, List.find?, hact]

/-- Witness for C10: a closed session is still polled and summarised by the
batch status route, and the redirect route flips a past-deadline active
session to expired. -/
theorem batch_status_no_session_gate_and_redirect_gate_witness :
    ((checkBatchStatusRoute 50 [] (fun _ => VerifierResponse.hardError)
        [{ (⟨1, "u1", .active, some 10⟩ : BatchSession) with
           status := BatchVerificationStatus.closed, expiresAt := none }]
        [⟨7, "t7", .initiated, some 900, none, none, none, none, some 1⟩]
        (⟨1, "u1", .active, some 10⟩ : BatchSession).uuid).1
      = (checkBatchStatusRoute 50 [] (fun _ => VerifierResponse.hardError)
        [⟨1, "u1", .active, some 10⟩]
        [⟨7, "t7", .initiated, some 900, none, none, none, none, some 1⟩]
        (⟨1, "u1", .active, some 10⟩ : BatchSession).uuid).1) ∧
    ((⟨1, "u1", .active, some 10⟩ : BatchSession).status = .active ∧
      (⟨1, "u1", .active, some 10⟩ : BatchSession).expiresAt = some 10 ∧
      (10 : Nat) < 50) ∧
    batchRedirect 50 [⟨1, "u1", .active, some 10⟩] [] 5 "tx" (some "au")
        (⟨1, "u1", .active, some 10⟩ : BatchSession).uuid =
      ([{ (⟨1, "u1", .active, some 10⟩ : BatchSession) with
          status := BatchVerificationStatus.expired }], [], .goneExpired) :=
  ⟨(batch_status_no_session_gate_and_redirect_gate 50 []
      (fun _ => VerifierResponse.hardError)
      [⟨7, "t7", .initiated, some 900, none, none, none, none, some 1⟩]
      ⟨1, "u1", .active, some 10⟩ 5 10 "tx" (some "au")).1 .closed none,
   ⟨rfl, rfl, by decide⟩,
   (batch_status_no_session_gate_and_redirect_gate 50 []
      (fun _ => VerifierResponse.hardError)
      []
      ⟨1, "u1", .active, some 10⟩ 5 10 "tx" (some "au")).2.2.1 rfl rfl (by decide)⟩

end WalletServer
